import Mathlib

/-!
# Verification of the Ground_controller_UI telemetry core

Shallow embedding of the telemetry simulation and snapshot-dispatch code of
the repository (files GCS_MODEL.py, GCS_MODEL_1.py, Rover_drone_controlller.py,
Frame_analysis.py).  Python floats are modelled as rational numbers; the
random draws (calls to np.random.randn and random.uniform) and the wall clock
(time.time) are explicit input streams; Qt slider readings are natural
numbers bounded by the slider range.  The file is organised as definitions
(the embedding) followed by theorems (the verified properties).
-/

namespace GCSUI

/-! ## Definitions -/

/-- Round half to even: the integer nearest to `x`, ties to the even one.
Models the Python builtin `round` (banker rounding) on the rational
idealisation of floats. -/
def roundHalfEven (x : ℚ) : ℤ :=
  if x - ⌊x⌋ < 1/2 then ⌊x⌋
  else if 1/2 < x - ⌊x⌋ then ⌊x⌋ + 1
  else if Even ⌊x⌋ then ⌊x⌋ else ⌊x⌋ + 1

/-- Python `round(x, k)` on rationals. -/
def pyRound (x : ℚ) (k : ℕ) : ℚ :=
  (roundHalfEven (x * 10 ^ k) : ℚ) / 10 ^ k

/-! ### GCS_MODEL.py : MainWindow telemetry simulation

The six `_sim_*` instance variables of `MainWindow` (initialised at
lines 471-476), the per-tick update `_simulate_telemetry` (lines 519-526),
the published dict (lines 528-535), and the reset `_reload_rover`
(lines 510-516). -/

/-- The `_sim_lat`, `_sim_lon`, `_sim_distance`, `_sim_battery`,
`_sim_speed`, `_sim_temp` variables of `MainWindow` (GCS_MODEL.py). -/
structure SimState where
  lat : ℚ
  lon : ℚ
  distance : ℚ
  battery : ℚ
  speed : ℚ
  temp : ℚ
  deriving DecidableEq

/-- Initial simulator state, GCS_MODEL.py lines 471-476:
lat 28.6, lon 77.2, distance 0.0, battery 100.0, speed 0.0, temp 25.0. -/
def initSim : SimState :=
  { lat := 286/10, lon := 772/10, distance := 0, battery := 100, speed := 0, temp := 25 }

/-- The three `np.random.randn()` draws consumed by one
`_simulate_telemetry` tick: latitude jitter, longitude jitter and
temperature noise (GCS_MODEL.py lines 521, 522, 526). -/
structure Noise where
  nLat : ℚ
  nLon : ℚ
  nTemp : ℚ
  deriving DecidableEq

/-- One tick of `MainWindow._simulate_telemetry` (GCS_MODEL.py lines 519-526).
`slider` is the speed-slider reading (`self.controls.speed_slider.value()`,
range 0..255).  Mirrors the Python statements in order:
`step = (slider/255)*0.0004`; `lat += step + randn()*1e-6`;
`lon += step + randn()*1e-6`; `distance += step*111000`;
`speed = (slider/255)*1.5`; `battery = max(0, battery - speed*0.02 - 0.05)`
(battery uses the freshly assigned speed); `temp = 20 + randn()*0.5`. -/
def simulateTelemetry (s : SimState) (slider : ℕ) (z : Noise) : SimState :=
  { lat := s.lat + ((slider : ℚ) / 255) * (4/10000) + z.nLat * (1/1000000)
    lon := s.lon + ((slider : ℚ) / 255) * (4/10000) + z.nLon * (1/1000000)
    distance := s.distance + ((slider : ℚ) / 255) * (4/10000) * 111000
    speed := ((slider : ℚ) / 255) * (3/2)
    battery := max 0 (s.battery - ((slider : ℚ) / 255) * (3/2) * (2/100) - 5/100)
    temp := 20 + z.nTemp * (1/2) }

/-- The telemetry dict published each tick (GCS_MODEL.py lines 528-535):
battery rounded to 1 decimal, speed to 2, distance to 1, temp to 1,
lat/lon raw. -/
structure Snapshot where
  battery : ℚ
  speed : ℚ
  distance : ℚ
  lat : ℚ
  lon : ℚ
  temp : ℚ
  deriving DecidableEq

/-- Build the published dict from the simulator state
(GCS_MODEL.py lines 528-535). -/
def mkSnapshot (s : SimState) : Snapshot :=
  { battery := pyRound s.battery 1
    speed := pyRound s.speed 2
    distance := pyRound s.distance 1
    lat := s.lat
    lon := s.lon
    temp := pyRound s.temp 1 }

/-- The simulator-variable part of `MainWindow._reload_rover`
(GCS_MODEL.py lines 511-514): lat/lon back to 28.6/77.2, distance 0,
battery 100, speed 0; `_sim_temp` is not touched. -/
def reloadSim (s : SimState) : SimState :=
  { s with lat := 286/10, lon := 772/10, distance := 0, battery := 100, speed := 0 }

/-- States of the GCS_MODEL.py simulation reachable from start-up by any
interleaving of telemetry ticks (arbitrary slider position and random
draws) and reload-rover resets. -/
inductive Reachable : SimState → Prop
  | init : Reachable initSim
  | tick {s : SimState} (slider : ℕ) (hs : slider ≤ 255) (z : Noise) :
      Reachable s → Reachable (simulateTelemetry s slider z)
  | reload {s : SimState} : Reachable s → Reachable (reloadSim s)

/-- The clamping invariant on the raw simulator state. -/
def SimInv (s : SimState) : Prop :=
  0 ≤ s.battery ∧ s.battery ≤ 100 ∧ 0 ≤ s.speed ∧ s.speed ≤ 3/2

/-- The state after `k` timer ticks of `_simulate_telemetry`, driven by an
arbitrary stream of slider readings and random draws. -/
def runStates (sl : ℕ → ℕ) (z : ℕ → Noise) : ℕ → SimState
  | 0 => initSim
  | k + 1 => simulateTelemetry (runStates sl z k) (sl k) (z k)

/-- The snapshot published by tick `k` (the dict built at the end of the
`k`-th `_simulate_telemetry` call). -/
def snapAt (sl : ℕ → ℕ) (z : ℕ → Noise) (k : ℕ) : Snapshot :=
  mkSnapshot (runStates sl z (k + 1))

/-- The sequence of snapshots published by the first `n` ticks. -/
def runSnapshots (sl : ℕ → ℕ) (z : ℕ → Noise) (n : ℕ) : List Snapshot :=
  (List.range n).map (snapAt sl z)

/-! ### Snapshot dispatch (GCS_MODEL.py lines 536-538)

Each `_simulate_telemetry` call ends with three synchronous consumer
calls, in fixed program order: `self.telemetry.update(telemetry)`,
`self.map_widget.update_position(...)`, `self.log_widget.log(...)`.
All three receive values of the same freshly built snapshot, and the
whole sequence runs on the Qt timer thread before the callback returns,
so no two dispatches overlap. -/

/-- The three consumers (sinks) hard-wired in `_simulate_telemetry`. -/
inductive Sink where
  | telemetryPanel : Sink
  | mapWidget : Sink
  | logWidget : Sink
  deriving DecidableEq

/-- Dispatch order of the sinks: the program order of the three calls at
GCS_MODEL.py lines 536-538. -/
def sinkOrder : List Sink := [Sink.telemetryPanel, Sink.mapWidget, Sink.logWidget]

/-- The notification events of one tick: each sink, in dispatch order,
observes the snapshot of that tick. -/
def dispatchTick (k : ℕ) (snap : Snapshot) : List (ℕ × Sink × Snapshot) :=
  sinkOrder.map (fun w => (k, w, snap))

/-- The flat event log of the first `n` ticks: events are listed in the
order in which the corresponding calls happen at run time. -/
def runTrace (sl : ℕ → ℕ) (z : ℕ → Noise) : ℕ → List (ℕ × Sink × Snapshot)
  | 0 => []
  | n + 1 => runTrace sl z n ++ dispatchTick n (snapAt sl z n)

/-! ### Sink failure (no exception handling around dispatch)

The three sink calls at GCS_MODEL.py lines 536-538 (and the body of
`MainWindow.on_telemetry` in GCS_MODEL_1.py lines 336-347) are plain
sequential Python statements with no try/except: if one call raises, the
following calls of that tick are skipped and the exception propagates out
of the callback.  A handler is modelled as returning `Except Unit Unit`
(error means the handler raised; the error payload is irrelevant). -/

/-- Run the handlers in order starting at index `i`: Python sequential
calls, where an uncaught exception aborts the rest.  Returns the indices
of the handlers that ran to completion and, if a handler raised, its
index. -/
def dispatchGo (snap : Snapshot) : ℕ → List (Snapshot → Except Unit Unit) → List ℕ × Option ℕ
  | _, [] => ([], none)
  | i, h :: t =>
    match h snap with
    | Except.ok _ =>
      let r := dispatchGo snap (i + 1) t
      (i :: r.1, r.2)
    | Except.error _ => ([], some i)

/-- Sequential delivery of one snapshot to a list of handlers, as the
source code performs it (no exception isolation). -/
def dispatchExcept (handlers : List (Snapshot → Except Unit Unit)) (snap : Snapshot) :
    List ℕ × Option ℕ :=
  dispatchGo snap 0 handlers

/-- The list `[i, i+1, ..., i+n-1]`. -/
def idxFrom : ℕ → ℕ → List ℕ
  | _, 0 => []
  | i, n + 1 => i :: idxFrom (i + 1) n

/-! ### GCS_MODEL_1.py : TelemetrySimulator

`TelemetrySimulator` (lines 91-123) owns `_run`, `_dist`, `_battery`,
`_speed`.  `start()` defines a `loop` closure and unconditionally spawns a
daemon thread running it; the loop, while `_run` is true, updates the
values, builds a payload dict (timestamp from `time.time()`), emits it and
sleeps.  `stop()` sets `_run = False`; nothing ever sets it back to True. -/

/-- The instance variables of `TelemetrySimulator` (GCS_MODEL_1.py
lines 94-99). -/
structure TSState where
  run : Bool
  dist : ℚ
  battery : ℚ
  speed : ℚ
  deriving DecidableEq

/-- `TelemetrySimulator.__init__`: `_run = True`, `_dist = 0.0`,
`_battery = 100.0`, `_speed = 0.0`. -/
def TS.init : TSState :=
  { run := true, dist := 0, battery := 100, speed := 0 }

/-- `TelemetrySimulator.stop` (lines 122-123): set `_run = False`. -/
def TS.stop (s : TSState) : TSState :=
  { s with run := false }

/-- The value updates of one loop iteration (lines 106-108):
`speed = max(0, min(2.5, speed + randn()*0.05))`;
`dist += speed*0.1`; `battery = max(0, battery - 0.01 - abs(speed)*0.001)`
(dist and battery use the freshly clamped speed). -/
def TS.update (s : TSState) (z : ℚ) : TSState :=
  { s with
    speed := max 0 (min (5/2) (s.speed + z * (5/100)))
    dist := s.dist + max 0 (min (5/2) (s.speed + z * (5/100))) * (1/10)
    battery := max 0 (s.battery - 1/100 - |max 0 (min (5/2) (s.speed + z * (5/100)))| * (1/1000)) }

/-- The payload dict emitted each iteration (lines 109-116). -/
structure TSPayload where
  timestamp : ℚ
  battery : ℚ
  speed : ℚ
  distance : ℚ
  temp : ℚ
  gpsLon : ℚ
  gpsLat : ℚ
  deriving DecidableEq

/-- Build the payload from the updated state: timestamp is the wall-clock
reading `t`; battery rounded to 1 decimal, speed and distance to 2, temp
to 1; gps freshly jittered around (77.2, 28.6) (lines 109-116). -/
def TS.payload (s : TSState) (t zTemp zLon zLat : ℚ) : TSPayload :=
  { timestamp := t
    battery := pyRound s.battery 1
    speed := pyRound s.speed 2
    distance := pyRound s.dist 2
    temp := pyRound (20 + zTemp) 1
    gpsLon := 772/10 + zLon * (1/10000)
    gpsLat := 286/10 + zLat * (1/10000) }

/-- The clamping invariant on the TelemetrySimulator state. -/
def TSInv (t : TSState) : Prop :=
  0 ≤ t.battery ∧ t.battery ≤ 100 ∧ 0 ≤ t.speed ∧ t.speed ≤ 5/2

/-- States of a `TelemetrySimulator` instance reachable from construction
by loop iterations and stop calls. -/
inductive TSReachable : TSState → Prop
  | init : TSReachable TS.init
  | update {t : TSState} (z : ℚ) : TSReachable t → TSReachable (TS.update t z)
  | stop {t : TSState} : TSReachable t → TSReachable (TS.stop t)

/-- Execution of the `loop` thread body (lines 103-118), run for at most
`fuel` iterations with no concurrent `stop()`.  Iteration `i` reads the
wall clock at `clock i` and consumes the four random draws
`noise (4*i) .. noise (4*i+3)` (speed step, temp, gps lon, gps lat).
Returns the emitted payloads in order and the final state. -/
def TS.loop (clock noise : ℕ → ℚ) : TSState → ℕ → ℕ → List TSPayload × TSState
  | s, _, 0 => ([], s)
  | s, i, fuel + 1 =>
    if s.run then
      let s' := TS.update s (noise (4 * i))
      let p := TS.payload s' (clock i) (noise (4 * i + 1)) (noise (4 * i + 2)) (noise (4 * i + 3))
      let r := TS.loop clock noise s' (i + 1) fuel
      (p :: r.1, r.2)
    else ([], s)

/-- The wall-clock readings of `fuel` consecutive iterations starting at
iteration `i`. -/
def clockList (clock : ℕ → ℚ) : ℕ → ℕ → List ℚ
  | _, 0 => []
  | i, f + 1 => clock i :: clockList clock (i + 1) f

/-- A `TelemetrySimulator` instance together with the number of spawned
loop threads that iterate.  `start()` spawns a thread unconditionally
(there is no started-guard, lines 101-120); a thread spawned while `_run`
is False exits its while-loop immediately without emitting, so only
threads spawned while `_run` is True count as live. -/
structure TSProc where
  sim : TSState
  liveLoops : ℕ
  deriving DecidableEq

/-- A freshly constructed simulator: `_run = True`, no loop thread yet. -/
def TSProc.init : TSProc :=
  { sim := TS.init, liveLoops := 0 }

/-- `TelemetrySimulator.start`: spawns one more loop thread; the thread
iterates (is live) iff `_run` is currently True. -/
def TSProc.start (p : TSProc) : TSProc :=
  { p with liveLoops := p.liveLoops + (if p.sim.run then 1 else 0) }

/-- `TelemetrySimulator.stop`: clears `_run`; every live loop observes the
cleared flag and exits after its current iteration. -/
def TSProc.stop (p : TSProc) : TSProc :=
  { sim := TS.stop p.sim, liveLoops := 0 }

/-- The external lifecycle calls of `TelemetrySimulator`. -/
inductive TSOp where
  | start : TSOp
  | stop : TSOp
  deriving DecidableEq

/-- Apply one lifecycle call. -/
def TSProc.apply : TSOp → TSProc → TSProc
  | TSOp.start, p => TSProc.start p
  | TSOp.stop, p => TSProc.stop p

/-- Apply a sequence of lifecycle calls, oldest first. -/
def TSProc.applyAll (ops : List TSOp) (p : TSProc) : TSProc :=
  ops.foldl (fun q o => TSProc.apply o q) p

/-! ### Rover_drone_controlller.py : FPVController lifecycle

`activate` (lines 127-132) is guarded by `if not self._running:`; it sets
`_running = True`, starts the telemetry timer and the video thread (which
opens the capture).  `deactivate` (lines 134-142) sets `_running = False`,
stops the timer and releases/clears the capture. -/

/-- The lifecycle-relevant state of `FPVController`: `_running`, whether
the telemetry QTimer is active, and whether `self.cap` is open. -/
structure FPVState where
  running : Bool
  timerActive : Bool
  capOpen : Bool
  deriving DecidableEq

/-- Constructor state (lines 106-112): not running, timer not started,
no capture. -/
def FPV.init : FPVState :=
  { running := false, timerActive := false, capOpen := false }

/-- The state after a (non-redundant) `activate`. -/
def FPV.activeState : FPVState :=
  { running := true, timerActive := true, capOpen := true }

/-- `FPVController.activate` (lines 127-132): no-op when already running. -/
def FPV.activate (s : FPVState) : FPVState :=
  if s.running then s
  else { running := true, timerActive := true, capOpen := true }

/-- `FPVController.deactivate` (lines 134-142): always ends not running,
timer stopped, capture released. -/
def FPV.deactivate (_ : FPVState) : FPVState :=
  { running := false, timerActive := false, capOpen := false }

/-- The external lifecycle calls of `FPVController`. -/
inductive FPVOp where
  | activate : FPVOp
  | deactivate : FPVOp
  deriving DecidableEq

/-- Apply one lifecycle call. -/
def FPV.apply : FPVOp → FPVState → FPVState
  | FPVOp.activate, s => FPV.activate s
  | FPVOp.deactivate, s => FPV.deactivate s

/-- Apply a sequence of lifecycle calls, oldest first. -/
def FPV.applyAll (ops : List FPVOp) (s : FPVState) : FPVState :=
  ops.foldl (fun t o => FPV.apply o t) s

/-! ### Frame_analysis.py : MultiViewModule capture lifecycle

`start_capture` (lines 55-70) returns immediately when `self.running` is
already True, otherwise sets it and opens three captures; `stop_capture`
(lines 72-77) clears the flag, releases the captures and empties the
list. -/

/-- The lifecycle-relevant state of `MultiViewModule`: `running` and the
number of open captures. -/
structure MVState where
  running : Bool
  captures : ℕ
  deriving DecidableEq

/-- Constructor state (lines 42-43). -/
def MV.init : MVState :=
  { running := false, captures := 0 }

/-- `MultiViewModule.start_capture` (lines 55-70): guarded no-op when
running; otherwise opens the three demo captures. -/
def MV.startCapture (s : MVState) : MVState :=
  if s.running then s else { running := true, captures := 3 }

/-- `MultiViewModule.stop_capture` (lines 72-77). -/
def MV.stopCapture (_ : MVState) : MVState :=
  { running := false, captures := 0 }

/-! ### GCS_MODEL.py : _reload_rover on the whole window state

`_reload_rover` (lines 510-516) resets the five `_sim_*` driving
variables, leaves `_sim_temp` alone, appends one line to the mission log
and pushes the home position to the map widget
(`self.map_widget.update_position(28.6, 77.2)` assigns the widget lat/lon,
GCS_MODEL.py lines 98-100). -/

/-- The window state touched (or notably not touched) by reload: the six
simulator variables, the map-widget marker position, and the number of
mission-log lines. -/
structure WindowState where
  simLat : ℚ
  simLon : ℚ
  simDistance : ℚ
  simBattery : ℚ
  simSpeed : ℚ
  simTemp : ℚ
  mapLat : ℚ
  mapLon : ℚ
  logLines : ℕ
  deriving DecidableEq

/-- `MainWindow._reload_rover` (GCS_MODEL.py lines 510-516). -/
def reloadRover (w : WindowState) : WindowState :=
  { w with
    simLat := 286/10, simLon := 772/10, simDistance := 0,
    simBattery := 100, simSpeed := 0,
    logLines := w.logLines + 1,
    mapLat := 286/10, mapLon := 772/10 }

/-! ## Theorems -/

/-! ### Rounding lemmas -/

theorem roundHalfEven_eq_floor_or_succ (x : ℚ) :
    roundHalfEven x = ⌊x⌋ ∨ roundHalfEven x = ⌊x⌋ + 1 := by
  unfold roundHalfEven
  split_ifs <;> simp

theorem floor_le_roundHalfEven (x : ℚ) : ⌊x⌋ ≤ roundHalfEven x := by
  rcases roundHalfEven_eq_floor_or_succ x with h | h <;> omega

theorem roundHalfEven_nonneg (x : ℚ) (hx : 0 ≤ x) : 0 ≤ roundHalfEven x := by
  have h : (0 : ℤ) ≤ ⌊x⌋ := Int.floor_nonneg.mpr hx
  have := floor_le_roundHalfEven x
  omega

theorem roundHalfEven_le (x : ℚ) (B : ℤ) (hx : x ≤ B) : roundHalfEven x ≤ B := by
  have hfl : ⌊x⌋ ≤ B := by
    have := Int.floor_le_floor (α := ℚ) hx
    simpa using this
  unfold roundHalfEven
  have hfloor : (⌊x⌋ : ℚ) ≤ x := Int.floor_le x
  split_ifs with h₁ h₂ h₃
  · exact hfl
  · have hlt : (⌊x⌋ : ℚ) < B := by linarith
    have : ⌊x⌋ < B := by exact_mod_cast hlt
    omega
  · exact hfl
  · have hge : 1/2 ≤ x - ⌊x⌋ := le_of_not_lt h₁
    have hlt : (⌊x⌋ : ℚ) < B := by linarith
    have : ⌊x⌋ < B := by exact_mod_cast hlt
    omega

theorem roundHalfEven_mono {x y : ℚ} (hxy : x ≤ y) :
    roundHalfEven x ≤ roundHalfEven y := by
  have hf : ⌊x⌋ ≤ ⌊y⌋ := Int.floor_le_floor hxy
  rcases lt_or_eq_of_le hf with hlt | heq
  · have h₁ : roundHalfEven x ≤ ⌊x⌋ + 1 := by
      rcases roundHalfEven_eq_floor_or_succ x with h | h <;> omega
    have h₂ : ⌊y⌋ ≤ roundHalfEven y := floor_le_roundHalfEven y
    omega
  · have hfrac : x - ⌊x⌋ ≤ y - ⌊y⌋ := by
      rw [← heq]
      linarith
    unfold roundHalfEven
    rw [← heq]
    split_ifs <;> first | omega | linarith

theorem pyRound_nonneg (x : ℚ) (k : ℕ) (hx : 0 ≤ x) : 0 ≤ pyRound x k := by
  unfold pyRound
  have h : (0 : ℤ) ≤ roundHalfEven (x * 10 ^ k) :=
    roundHalfEven_nonneg _ (by positivity)
  have h10 : (0 : ℚ) < 10 ^ k := by positivity
  have : (0 : ℚ) ≤ (roundHalfEven (x * 10 ^ k) : ℚ) := by exact_mod_cast h
  positivity

theorem pyRound_le_div (x : ℚ) (k : ℕ) (B : ℤ) (h : x * 10 ^ k ≤ (B : ℚ)) :
    pyRound x k ≤ (B : ℚ) / 10 ^ k := by
  unfold pyRound
  have hR : roundHalfEven (x * 10 ^ k) ≤ B := roundHalfEven_le _ _ h
  have hRq : (roundHalfEven (x * 10 ^ k) : ℚ) ≤ (B : ℚ) := by exact_mod_cast hR
  have h10 : (0 : ℚ) < 10 ^ k := by positivity
  exact div_le_div_of_nonneg_right hRq (le_of_lt h10)

theorem pyRound_mono {x y : ℚ} (k : ℕ) (hxy : x ≤ y) :
    pyRound x k ≤ pyRound y k := by
  unfold pyRound
  have h10 : (0 : ℚ) < 10 ^ k := by positivity
  have hm : x * 10 ^ k ≤ y * 10 ^ k :=
    mul_le_mul_of_nonneg_right hxy (le_of_lt h10)
  have hR : roundHalfEven (x * 10 ^ k) ≤ roundHalfEven (y * 10 ^ k) :=
    roundHalfEven_mono hm
  have hRq : (roundHalfEven (x * 10 ^ k) : ℚ) ≤ (roundHalfEven (y * 10 ^ k) : ℚ) := by
    exact_mod_cast hR
  exact div_le_div_of_nonneg_right hRq (le_of_lt h10)

/-! ### Invariant lemmas for the GCS_MODEL.py simulation -/

theorem simInv_init : SimInv initSim := by
  refine ⟨?_, ?_, ?_, ?_⟩ <;> norm_num [initSim, SimInv]

theorem simInv_tick {s : SimState} (hs : SimInv s) (slider : ℕ) (hsl : slider ≤ 255)
    (z : Noise) : SimInv (simulateTelemetry s slider z) := by
  obtain ⟨hb0, hb1, hv0, hv1⟩ := hs
  have hq0 : (0 : ℚ) ≤ (slider : ℚ) := by positivity
  have hq1 : (slider : ℚ) ≤ 255 := by exact_mod_cast hsl
  refine ⟨?_, ?_, ?_, ?_⟩
  · exact le_max_left 0 _
  · refine max_le (by norm_num) ?_
    nlinarith
  · simp only [simulateTelemetry]
    positivity
  · simp only [simulateTelemetry]
    nlinarith

theorem simInv_reload {s : SimState} : SimInv (reloadSim s) := by
  refine ⟨?_, ?_, ?_, ?_⟩ <;> norm_num [reloadSim, SimInv]

theorem reachable_simInv {s : SimState} (h : Reachable s) : SimInv s := by
  induction h with
  | init => exact simInv_init
  | tick slider hsl z _ ih => exact simInv_tick ih slider hsl z
  | reload _ ih => exact simInv_reload

/-! ### Invariant lemmas for the GCS_MODEL_1.py simulator -/

theorem tsInv_init : TSInv TS.init := by
  refine ⟨?_, ?_, ?_, ?_⟩ <;> norm_num [TS.init, TSInv]

theorem tsInv_update {t : TSState} (ht : TSInv t) (z : ℚ) : TSInv (TS.update t z) := by
  obtain ⟨hb0, hb1, hv0, hv1⟩ := ht
  have habs : (0 : ℚ) ≤ |max 0 (min (5/2) (t.speed + z * (5/100)))| := abs_nonneg _
  refine ⟨?_, ?_, ?_, ?_⟩
  · exact le_max_left 0 _
  · refine max_le (by norm_num) ?_
    simp only [TS.update] at *
    linarith
  · exact le_max_left 0 _
  · refine max_le (by norm_num) (min_le_left _ _)

theorem tsInv_stop {t : TSState} (ht : TSInv t) : TSInv (TS.stop t) := ht

theorem tsReachable_inv {t : TSState} (h : TSReachable t) : TSInv t := by
  induction h with
  | init => exact tsInv_init
  | update z _ ih => exact tsInv_update ih z
  | stop _ ih => exact tsInv_stop ih

/-! ### Distance lemmas -/

theorem simulateTelemetry_distance_le (s : SimState) (slider : ℕ) (z : Noise) :
    s.distance ≤ (simulateTelemetry s slider z).distance := by
  simp only [simulateTelemetry]
  have h : (0 : ℚ) ≤ ((slider : ℚ) / 255) * (4/10000) * 111000 := by positivity
  linarith

theorem TS_update_dist_le (t : TSState) (z : ℚ) : t.dist ≤ (TS.update t z).dist := by
  simp only [TS.update]
  have h : (0 : ℚ) ≤ max 0 (min (5/2) (t.speed + z * (5/100))) * (1/10) := by
    have := le_max_left (0 : ℚ) (min (5/2) (t.speed + z * (5/100)))
    nlinarith
  linarith

theorem runStates_distance_mono (sl : ℕ → ℕ) (z : ℕ → Noise) {i j : ℕ} (hij : i ≤ j) :
    (runStates sl z i).distance ≤ (runStates sl z j).distance := by
  induction j with
  | zero =>
    have : i = 0 := Nat.le_zero.mp hij
    simp [this]
  | succ j ih =>
    rcases Nat.lt_or_ge i (j + 1) with h | h
    · have h1 : i ≤ j := Nat.lt_succ_iff.mp h
      calc (runStates sl z i).distance
          ≤ (runStates sl z j).distance := ih h1
        _ ≤ (runStates sl z (j + 1)).distance := by
            simp only [runStates]
            exact simulateTelemetry_distance_le _ _ _
    · have : i = j + 1 := le_antisymm hij h
      simp [this]

/-! ### Trace lemmas for snapshot dispatch -/

theorem runTrace_length (sl : ℕ → ℕ) (z : ℕ → Noise) (n : ℕ) :
    (runTrace sl z n).length = 3 * n := by
  induction n with
  | zero => rfl
  | succ n ih =>
    simp only [runTrace, List.length_append, ih, dispatchTick, List.length_map]
    simp [sinkOrder]
    omega

theorem runTrace_get? (sl : ℕ → ℕ) (z : ℕ → Noise) :
    ∀ {n k i : ℕ}, k < n → i < 3 →
      (runTrace sl z n).get? (3 * k + i) = (dispatchTick k (snapAt sl z k)).get? i := by
  intro n
  induction n with
  | zero => intro k i hk _; omega
  | succ n ih =>
    intro k i hk hi
    rcases Nat.lt_or_ge k n with h | h
    · have hlen : 3 * k + i < (runTrace sl z n).length := by
        rw [runTrace_length]; omega
      simp only [runTrace]
      rw [List.get?_append hlen]
      exact ih h hi
    · have hkn : k = n := by omega
      subst hkn
      have hlen : (runTrace sl z k).length ≤ 3 * k + i := by
        rw [runTrace_length]; omega
      simp only [runTrace]
      rw [List.get?_append_right hlen, runTrace_length]
      congr 1
      omega

theorem dispatchTick_get?_zero (k : ℕ) (snap : Snapshot) :
    (dispatchTick k snap).get? 0 = some (k, Sink.telemetryPanel, snap) := rfl

theorem dispatchTick_get?_one (k : ℕ) (snap : Snapshot) :
    (dispatchTick k snap).get? 1 = some (k, Sink.mapWidget, snap) := rfl

theorem dispatchTick_get?_two (k : ℕ) (snap : Snapshot) :
    (dispatchTick k snap).get? 2 = some (k, Sink.logWidget, snap) := rfl

/-! ### Dispatch-with-exceptions lemmas -/

theorem dispatchGo_append (snap : Snapshot) (post : List (Snapshot → Except Unit Unit)) :
    ∀ (pre : List (Snapshot → Except Unit Unit)) (i : ℕ),
      (∀ h ∈ pre, h snap = Except.ok ()) →
      dispatchGo snap i (pre ++ (fun _ => Except.error ()) :: post)
        = (idxFrom i pre.length, some (i + pre.length)) := by
  intro pre
  induction pre with
  | nil =>
    intro i _
    simp [dispatchGo, idxFrom]
  | cons h t iht =>
    intro i hpre
    have hh : h snap = Except.ok () := hpre h (by simp)
    have ht : ∀ g ∈ t, g snap = Except.ok () := fun g hg => hpre g (by simp [hg])
    simp only [List.cons_append, dispatchGo, hh, List.append_eq]
    rw [iht (i + 1) ht]
    simp [idxFrom, List.length_cons]
    omega

/-! ### TelemetrySimulator loop lemmas -/

theorem TS_update_run (t : TSState) (z : ℚ) : (TS.update t z).run = t.run := rfl

theorem TS_loop_not_run {s : TSState} (h : s.run = false) (clock noise : ℕ → ℚ)
    (i fuel : ℕ) : TS.loop clock noise s i fuel = ([], s) := by
  cases fuel with
  | zero => rfl
  | succ fuel => simp [TS.loop, h]

theorem TS_loop_timestamps (clock noise : ℕ → ℚ) :
    ∀ (fuel : ℕ) (s : TSState), s.run = true → ∀ i : ℕ,
      ((TS.loop clock noise s i fuel).1.map (fun p => p.timestamp))
        = clockList clock i fuel := by
  intro fuel
  induction fuel with
  | zero => intro s _ i; rfl
  | succ fuel ih =>
    intro s hrun i
    have hrun2 : (TS.update s (noise (4 * i))).run = true := by
      rw [TS_update_run]; exact hrun
    simp only [TS.loop, hrun, if_true, List.map_cons, clockList]
    exact congrArg (fun l => clock i :: l) (ih _ hrun2 (i + 1))

theorem clockList_mem {clock : ℕ → ℚ} :
    ∀ {f i : ℕ} {x : ℚ}, x ∈ clockList clock i f → ∃ k, i ≤ k ∧ k < i + f ∧ x = clock k := by
  intro f
  induction f with
  | zero => intro i x hx; simp [clockList] at hx
  | succ f ih =>
    intro i x hx
    simp only [clockList, List.mem_cons] at hx
    rcases hx with h | h
    · exact ⟨i, le_refl i, by omega, h⟩
    · obtain ⟨k, hk1, hk2, hk3⟩ := ih h
      exact ⟨k, by omega, by omega, hk3⟩

theorem clockList_pairwise {clock : ℕ → ℚ} (hmono : ∀ i j, i < j → clock i < clock j) :
    ∀ (f i : ℕ), (clockList clock i f).Pairwise (· < ·) := by
  intro f
  induction f with
  | zero => intro i; exact List.Pairwise.nil
  | succ f ih =>
    intro i
    refine List.Pairwise.cons ?_ (ih (i + 1))
    intro x hx
    obtain ⟨k, hk1, _, hk3⟩ := clockList_mem hx
    rw [hk3]
    exact hmono i k (by omega)

/-! ### Determinism lemmas -/

theorem runStates_congr (sl₁ sl₂ : ℕ → ℕ) (z₁ z₂ : ℕ → Noise) {n : ℕ}
    (hsl : ∀ k, k < n → sl₁ k = sl₂ k) (hz : ∀ k, k < n → z₁ k = z₂ k) :
    ∀ k, k ≤ n → runStates sl₁ z₁ k = runStates sl₂ z₂ k := by
  intro k
  induction k with
  | zero => intro _; rfl
  | succ k ih =>
    intro hk
    simp only [runStates]
    rw [ih (by omega), hsl k (by omega), hz k (by omega)]

theorem TS_loop_congr (clock₁ clock₂ noise₁ noise₂ : ℕ → ℚ) :
    ∀ (fuel : ℕ) (t : TSState) (i : ℕ),
      (∀ k, i ≤ k → k < i + fuel → clock₁ k = clock₂ k) →
      (∀ k, 4 * i ≤ k → k < 4 * (i + fuel) → noise₁ k = noise₂ k) →
      TS.loop clock₁ noise₁ t i fuel = TS.loop clock₂ noise₂ t i fuel := by
  intro fuel
  induction fuel with
  | zero => intro t i _ _; rfl
  | succ fuel ih =>
    intro t i hc hn
    by_cases h : t.run = true
    · have ec : clock₁ i = clock₂ i := hc i (le_refl i) (by omega)
      have e₀ : noise₁ (4 * i) = noise₂ (4 * i) := hn _ (by omega) (by omega)
      have e₁ : noise₁ (4 * i + 1) = noise₂ (4 * i + 1) := hn _ (by omega) (by omega)
      have e₂ : noise₁ (4 * i + 2) = noise₂ (4 * i + 2) := hn _ (by omega) (by omega)
      have e₃ : noise₁ (4 * i + 3) = noise₂ (4 * i + 3) := hn _ (by omega) (by omega)
      simp only [TS.loop, h, if_true]
      rw [ec, e₀, e₁, e₂, e₃,
        ih (TS.update t (noise₂ (4 * i))) (i + 1)
          (fun k hk1 hk2 => hc k (by omega) (by omega))
          (fun k hk1 hk2 => hn k (by omega) (by omega))]
    · have hf : t.run = false := by
        cases hr : t.run
        · rfl
        · exact absurd hr h
      rw [TS_loop_not_run hf, TS_loop_not_run hf]

/-! ### Lifecycle lemmas -/

theorem applyAll_stopped :
    ∀ (ops : List TSOp) (p : TSProc), p.sim.run = false → p.liveLoops = 0 →
      (TSProc.applyAll ops p).sim.run = false ∧ (TSProc.applyAll ops p).liveLoops = 0 := by
  intro ops
  induction ops with
  | nil => intro p h1 h2; exact ⟨h1, h2⟩
  | cons o t ih =>
    intro p h1 h2
    cases o with
    | start =>
      refine ih _ ?_ ?_ <;> simp [TSProc.applyAll, TSProc.apply, TSProc.start, h1, h2]
    | stop =>
      refine ih _ ?_ ?_ <;> simp [TSProc.applyAll, TSProc.apply, TSProc.stop, TS.stop]

theorem fpv_apply_cases (o : FPVOp) (s : FPVState)
    (h : s = FPV.init ∨ s = FPV.activeState) :
    FPV.apply o s = FPV.init ∨ FPV.apply o s = FPV.activeState := by
  cases o with
  | activate =>
    rcases h with h | h <;> subst h <;>
      simp [FPV.apply, FPV.activate, FPV.init, FPV.activeState]
  | deactivate =>
    left
    simp [FPV.apply, FPV.deactivate, FPV.init]

theorem fpv_applyAll_cases :
    ∀ (ops : List FPVOp) (s : FPVState), (s = FPV.init ∨ s = FPV.activeState) →
      FPV.applyAll ops s = FPV.init ∨ FPV.applyAll ops s = FPV.activeState := by
  intro ops
  induction ops with
  | nil => intro s h; exact h
  | cons o t ih =>
    intro s h
    exact ih (FPV.apply o s) (fpv_apply_cases o s h)

/-! ### Claim theorems -/

/-- C1: every published snapshot of a reachable state of the GCS_MODEL.py
simulation has battery in [0, 100] and speed in [0, 1.5] (the configured
maximum), every reachable TelemetrySimulator state of GCS_MODEL_1.py has
battery in [0, 100] and speed in [0, 2.5], and starting a tick from battery
0.03 at full control input clamps battery to exactly 0 (it never goes
negative). -/
theorem battery_speed_clamping (s : SimState) (hs : Reachable s)
    (t : TSState) (ht : TSReachable t) :
    (0 ≤ (mkSnapshot s).battery ∧ (mkSnapshot s).battery ≤ 100 ∧
      0 ≤ (mkSnapshot s).speed ∧ (mkSnapshot s).speed ≤ 3/2) ∧
    (0 ≤ t.battery ∧ t.battery ≤ 100 ∧ 0 ≤ t.speed ∧ t.speed ≤ 5/2) ∧
    (∀ z : Noise,
      (simulateTelemetry { initSim with battery := 3/100 } 255 z).battery = 0) := by
  obtain ⟨hb0, hb1, hv0, hv1⟩ := reachable_simInv hs
  refine ⟨⟨?_, ?_, ?_, ?_⟩, tsReachable_inv ht, ?_⟩
  · exact pyRound_nonneg _ _ hb0
  · have h := pyRound_le_div s.battery 1 1000 (by push_cast; linarith)
    norm_num at h
    exact h
  · exact pyRound_nonneg _ _ hv0
  · have h := pyRound_le_div s.speed 2 150 (by push_cast; linarith)
    norm_num at h
    exact h
  · intro z
    norm_num [simulateTelemetry, initSim]

/-- Witness for C1 at the initial states of both simulations. -/
theorem battery_speed_clamping_witness :
    Reachable initSim ∧ TSReachable TS.init ∧
    ((0 ≤ (mkSnapshot initSim).battery ∧ (mkSnapshot initSim).battery ≤ 100 ∧
        0 ≤ (mkSnapshot initSim).speed ∧ (mkSnapshot initSim).speed ≤ 3/2) ∧
      (0 ≤ TS.init.battery ∧ TS.init.battery ≤ 100 ∧
        0 ≤ TS.init.speed ∧ TS.init.speed ≤ 5/2) ∧
      (∀ z : Noise,
        (simulateTelemetry { initSim with battery := 3/100 } 255 z).battery = 0)) :=
  ⟨Reachable.init, TSReachable.init,
    battery_speed_clamping initSim Reachable.init TS.init TSReachable.init⟩

/-- C2: the distance field of the published snapshots is non-decreasing
along any tick sequence of the GCS_MODEL.py simulation (any slider
readings, any random draws), and per-tick monotonicity holds for the raw
state updates of both variants. -/
theorem distance_monotone (sl : ℕ → ℕ) (z : ℕ → Noise) (i j : ℕ) (hij : i ≤ j) :
    (snapAt sl z i).distance ≤ (snapAt sl z j).distance ∧
    (∀ (s : SimState) (slider : ℕ) (zz : Noise),
      s.distance ≤ (simulateTelemetry s slider zz).distance) ∧
    (∀ (t : TSState) (zz : ℚ), t.dist ≤ (TS.update t zz).dist) := by
  refine ⟨?_, simulateTelemetry_distance_le, TS_update_dist_le⟩
  have h := runStates_distance_mono sl z (Nat.succ_le_succ hij)
  exact pyRound_mono 1 h

/-- Witness for C2 on the constant full-throttle input at ticks 0 and 2. -/
theorem distance_monotone_witness :
    (0 : ℕ) ≤ 2 ∧
    ((snapAt (fun _ => 255) (fun _ => ⟨0, 0, 0⟩) 0).distance
        ≤ (snapAt (fun _ => 255) (fun _ => ⟨0, 0, 0⟩) 2).distance ∧
      (∀ (s : SimState) (slider : ℕ) (zz : Noise),
        s.distance ≤ (simulateTelemetry s slider zz).distance) ∧
      (∀ (t : TSState) (zz : ℚ), t.dist ≤ (TS.update t zz).dist)) :=
  ⟨Nat.zero_le 2, distance_monotone (fun _ => 255) (fun _ => ⟨0, 0, 0⟩) 0 2 (Nat.zero_le 2)⟩

/-- C3 counterexample: with the claimed configuration (initial battery 100,
full control input, the constants hard-coded in `_simulate_telemetry`) the
first tick sets distance to 0.0004·111000 = 44.4 m, not ≈ 1.5 m: the code
adds `step*111000` with `step = (slider/255)*0.0004`, independent of the
computed speed and of the tick interval. -/
theorem first_tick_distance_not_speed_times_dt :
    (simulateTelemetry initSim 255 ⟨0, 0, 0⟩).distance = 444/10 ∧
    ¬ |(simulateTelemetry initSim 255 ⟨0, 0, 0⟩).distance - 3/2| < 1 := by
  constructor
  · norm_num [simulateTelemetry, initSim]
  · norm_num [simulateTelemetry, initSim, abs_sub_lt_iff]
    rw [abs_of_nonneg (by norm_num : (0:ℚ) ≤ 429/10)]
    norm_num

/-- C3 (amended): with initial battery 100, full control input (slider
255) and the hard-coded constants drain 0.02 / idle 0.05 / max speed 1.5,
the first tick yields speed 1.5, battery 99.92 and distance 44.4, and the
second tick under the same input yields battery 99.84 and distance 88.8
(the distance increment is `(slider/255)*0.0004*111000 = 44.4` per tick,
not `speed * tick_interval`); this holds for any random draws. -/
theorem two_tick_scenario (z₁ z₂ : Noise) :
    (simulateTelemetry initSim 255 z₁).speed = 3/2 ∧
    (simulateTelemetry initSim 255 z₁).battery = 9992/100 ∧
    (simulateTelemetry initSim 255 z₁).distance = 444/10 ∧
    (simulateTelemetry (simulateTelemetry initSim 255 z₁) 255 z₂).battery = 9984/100 ∧
    (simulateTelemetry (simulateTelemetry initSim 255 z₁) 255 z₂).distance = 888/10 := by
  refine ⟨?_, ?_, ?_, ?_, ?_⟩ <;> norm_num [simulateTelemetry, initSim]

/-- C4 counterexample: with a first handler that raises on every call and a
second, functioning handler, sequential dispatch delivers the snapshot to
no handler at all — the delivered-index list is empty, so the other
registered sink does not receive the snapshot, and the exception (index 0)
escapes the tick callback. -/
theorem failing_sink_blocks_others :
    dispatchExcept [fun _ => Except.error (), fun _ => Except.ok ()]
        (mkSnapshot initSim) = ([], some 0) ∧
    0 ∉ (dispatchExcept [fun _ => Except.error (), fun _ => Except.ok ()]
        (mkSnapshot initSim)).1 ∧
    1 ∉ (dispatchExcept [fun _ => Except.error (), fun _ => Except.ok ()]
        (mkSnapshot initSim)).1 := by
  refine ⟨rfl, ?_, ?_⟩ <;> simp [dispatchExcept, dispatchGo]

/-- C4 (amended): the sink calls have no try/except around them, so when
the handler at position `pre.length` raises, exactly the handlers before
it receive the snapshot (in order), every handler after it is skipped for
that tick, and the exception propagates out of the dispatch (it is
reported, not caught — there is no SinkError recovery in the code). -/
theorem failing_sink_aborts_dispatch (pre post : List (Snapshot → Except Unit Unit))
    (snap : Snapshot) (hpre : ∀ h ∈ pre, h snap = Except.ok ()) :
    dispatchExcept (pre ++ (fun _ => Except.error ()) :: post) snap
      = (idxFrom 0 pre.length, some pre.length) := by
  have h := dispatchGo_append snap post pre 0 hpre
  simpa [dispatchExcept] using h

/-- Witness for C4 (amended): one functioning handler before the raising
one; only index 0 is delivered and the exception is raised at index 1. -/
theorem failing_sink_aborts_dispatch_witness :
    (∀ h ∈ [fun _ => (Except.ok () : Except Unit Unit)],
        h (mkSnapshot initSim) = Except.ok ()) ∧
    dispatchExcept
        ([fun _ => (Except.ok () : Except Unit Unit)] ++ (fun _ => Except.error ()) :: [])
        (mkSnapshot initSim)
      = (idxFrom 0 1, some 1) :=
  ⟨fun h hm => by
      simp only [List.mem_singleton] at hm
      subst hm
      rfl,
    failing_sink_aborts_dispatch [fun _ => Except.ok ()] [] (mkSnapshot initSim)
      (fun h hm => by
        simp only [List.mem_singleton] at hm
        subst hm
        rfl)⟩

/-- C5: in the event log of any run, tick `k` occupies exactly the trace
positions `3k`, `3k+1`, `3k+2`: the telemetry panel, then the map widget,
then the log observe the identical snapshot of tick `k`, in the fixed
program (subscription) order, and every event of a later tick sits at a
strictly later position — delivery of snapshot `k+1` never starts before
all sinks have finished with snapshot `k` (the dispatch is synchronous
inside the timer callback). -/
theorem delivery_order (sl : ℕ → ℕ) (z : ℕ → Noise) (n k : ℕ) (hk : k < n) :
    (runTrace sl z n).get? (3 * k) = some (k, Sink.telemetryPanel, snapAt sl z k) ∧
    (runTrace sl z n).get? (3 * k + 1) = some (k, Sink.mapWidget, snapAt sl z k) ∧
    (runTrace sl z n).get? (3 * k + 2) = some (k, Sink.logWidget, snapAt sl z k) ∧
    (∀ k' i i' : ℕ, k < k' → i < 3 → i' < 3 → 3 * k + i < 3 * k' + i') := by
  refine ⟨?_, ?_, ?_, fun k' i i' h1 h2 h3 => by omega⟩
  · have h := runTrace_get? sl z hk (by omega : (0:ℕ) < 3)
    rw [Nat.add_zero] at h
    rw [h, dispatchTick_get?_zero]
  · rw [runTrace_get? sl z hk (by omega : (1:ℕ) < 3), dispatchTick_get?_one]
  · rw [runTrace_get? sl z hk (by omega : (2:ℕ) < 3), dispatchTick_get?_two]

/-- Witness for C5 at the first tick of a full-throttle run. -/
theorem delivery_order_witness :
    0 < 1 ∧
    ((runTrace (fun _ => 255) (fun _ => ⟨0, 0, 0⟩) 1).get? (3 * 0)
        = some (0, Sink.telemetryPanel, snapAt (fun _ => 255) (fun _ => ⟨0, 0, 0⟩) 0) ∧
      (runTrace (fun _ => 255) (fun _ => ⟨0, 0, 0⟩) 1).get? (3 * 0 + 1)
        = some (0, Sink.mapWidget, snapAt (fun _ => 255) (fun _ => ⟨0, 0, 0⟩) 0) ∧
      (runTrace (fun _ => 255) (fun _ => ⟨0, 0, 0⟩) 1).get? (3 * 0 + 2)
        = some (0, Sink.logWidget, snapAt (fun _ => 255) (fun _ => ⟨0, 0, 0⟩) 0) ∧
      (∀ k' i i' : ℕ, 0 < k' → i < 3 → i' < 3 → 3 * 0 + i < 3 * k' + i')) :=
  ⟨Nat.zero_lt_one,
    delivery_order (fun _ => 255) (fun _ => ⟨0, 0, 0⟩) 1 0 Nat.zero_lt_one⟩

/-- C6: the simulation is a deterministic function of its inputs — two
runs whose control-input and random-draw streams agree on the draws
actually consumed produce identical snapshot sequences (GCS_MODEL.py) and
identical payload lists and final states (GCS_MODEL_1.py); with a fixed
seed the generator yields the same draws, hence bit-identical sequences. -/
theorem telemetry_deterministic (sl₁ sl₂ : ℕ → ℕ) (z₁ z₂ : ℕ → Noise)
    (clock₁ clock₂ noise₁ noise₂ : ℕ → ℚ) (t : TSState) (n : ℕ)
    (hsl : ∀ k, k < n → sl₁ k = sl₂ k) (hz : ∀ k, k < n → z₁ k = z₂ k)
    (hc : ∀ k, k < n → clock₁ k = clock₂ k)
    (hn4 : ∀ k, k < 4 * n → noise₁ k = noise₂ k) :
    runSnapshots sl₁ z₁ n = runSnapshots sl₂ z₂ n ∧
    TS.loop clock₁ noise₁ t 0 n = TS.loop clock₂ noise₂ t 0 n := by
  constructor
  · unfold runSnapshots
    refine List.map_congr_left ?_
    intro k hkmem
    have hk : k < n := List.mem_range.mp hkmem
    unfold snapAt
    rw [runStates_congr sl₁ sl₂ z₁ z₂ hsl hz (k + 1) (by omega)]
  · exact TS_loop_congr clock₁ clock₂ noise₁ noise₂ n t 0
      (fun k hk1 hk2 => hc k (by omega))
      (fun k hk1 hk2 => hn4 k (by omega))

/-- Witness for C6 with syntactically equal streams of length 1. -/
theorem telemetry_deterministic_witness :
    (∀ k, k < 1 → (fun _ => (255 : ℕ)) k = (fun _ => (255 : ℕ)) k) ∧
    (runSnapshots (fun _ => 255) (fun _ => ⟨0, 0, 0⟩) 1
        = runSnapshots (fun _ => 255) (fun _ => ⟨0, 0, 0⟩) 1 ∧
      TS.loop (fun _ => 0) (fun _ => 0) TS.init 0 1
        = TS.loop (fun _ => 0) (fun _ => 0) TS.init 0 1) :=
  ⟨fun _ _ => rfl,
    telemetry_deterministic (fun _ => 255) (fun _ => 255)
      (fun _ => ⟨0, 0, 0⟩) (fun _ => ⟨0, 0, 0⟩)
      (fun _ => 0) (fun _ => 0) (fun _ => 0) (fun _ => 0) TS.init 1
      (fun _ _ => rfl) (fun _ _ => rfl) (fun _ _ => rfl) (fun _ _ => rfl)⟩

/-- C7 counterexample: the payload timestamp is the raw `time.time()`
reading, which the code does not force to advance: under a wall clock that
returns the same value twice, two consecutively emitted payloads share a
timestamp, so the timestamp sequence is not strictly increasing. -/
theorem timestamps_can_repeat :
    ((TS.loop (fun _ => (0 : ℚ)) (fun _ => 0) TS.init 0 2).1.map
        (fun p => p.timestamp)) = [0, 0] ∧
    ¬ ((TS.loop (fun _ => (0 : ℚ)) (fun _ => 0) TS.init 0 2).1.map
        (fun p => p.timestamp)).Pairwise (· < ·) := by
  have e : ((TS.loop (fun _ => (0 : ℚ)) (fun _ => 0) TS.init 0 2).1.map
      (fun p => p.timestamp)) = [0, 0] := rfl
  refine ⟨e, ?_⟩
  rw [e]
  simp [List.pairwise_cons]

/-- C7 (amended): each emitted payload timestamp is the wall-clock reading
of its iteration, so whenever the wall clock is strictly increasing across
readings the emitted timestamp sequence is strictly increasing (no gaps in
the emission order, no duplicates); the code itself does not enforce clock
monotonicity. -/
theorem timestamps_strictly_increasing (s : TSState) (hs : s.run = true)
    (clock noise : ℕ → ℚ) (fuel : ℕ)
    (hmono : ∀ i j : ℕ, i < j → clock i < clock j) :
    ((TS.loop clock noise s 0 fuel).1.map (fun p => p.timestamp)).Pairwise (· < ·) := by
  rw [TS_loop_timestamps clock noise fuel s hs 0]
  exact clockList_pairwise hmono fuel 0

/-- Witness for C7 (amended): a fresh simulator under the identity clock. -/
theorem timestamps_strictly_increasing_witness :
    TS.init.run = true ∧
    (∀ i j : ℕ, i < j → ((i : ℚ)) < ((j : ℚ))) ∧
    ((TS.loop (fun k => (k : ℚ)) (fun _ => 0) TS.init 0 2).1.map
        (fun p => p.timestamp)).Pairwise (· < ·) :=
  ⟨rfl, fun i j h => by exact_mod_cast h,
    timestamps_strictly_increasing TS.init rfl (fun k => (k : ℚ)) (fun _ => 0) 2
      (fun i j h => by
        show (i : ℚ) < (j : ℚ)
        exact_mod_cast h)⟩

/-- C8 counterexample: `TelemetrySimulator.start` has no started-guard: a
second `start()` while the simulator is running spawns a second live tick
loop (two threads now emit), so the second call is not without effect. -/
theorem second_start_spawns_second_loop :
    (TSProc.start (TSProc.start TSProc.init)).liveLoops = 2 ∧
    TSProc.start (TSProc.start TSProc.init) ≠ TSProc.start TSProc.init := by
  constructor
  · rfl
  · intro h
    have h2 := congrArg TSProc.liveLoops h
    simp [TSProc.start, TSProc.init, TS.init] at h2

/-- C8 (amended): `FPVController.activate`/`deactivate` and
`MultiViewModule.start_capture`/`stop_capture` are idempotent, the
FPVController lifecycle is a two-state machine (every op sequence from the
constructor state ends in one of exactly two states), and
`TelemetrySimulator.stop` is idempotent — but `TelemetrySimulator.start`
is not: a second call while running spawns a second live tick loop. -/
theorem lifecycle_idempotence :
    (∀ s : FPVState, FPV.activate (FPV.activate s) = FPV.activate s) ∧
    (∀ s : FPVState, FPV.deactivate (FPV.deactivate s) = FPV.deactivate s) ∧
    (∀ m : MVState, MV.startCapture (MV.startCapture m) = MV.startCapture m) ∧
    (∀ m : MVState, MV.stopCapture (MV.stopCapture m) = MV.stopCapture m) ∧
    (∀ p : TSProc, TSProc.stop (TSProc.stop p) = TSProc.stop p) ∧
    (∀ ops : List FPVOp,
      FPV.applyAll ops FPV.init = FPV.init ∨ FPV.applyAll ops FPV.init = FPV.activeState) ∧
    (TSProc.start (TSProc.start TSProc.init)).liveLoops = 2 := by
  refine ⟨?_, ?_, ?_, ?_, ?_, ?_, rfl⟩
  · intro s
    by_cases h : s.running <;> simp [FPV.activate, h]
  · intro s
    rfl
  · intro m
    by_cases h : m.running <;> simp [MV.startCapture, h]
  · intro m
    rfl
  · intro p
    rfl
  · intro ops
    exact fpv_applyAll_cases ops FPV.init (Or.inl rfl)

/-- C9: once `stop()` has run, `_run` stays False under any further
sequence of `start()`/`stop()` calls (nothing resets the flag), no live
loop remains or is created, and a tick loop started on the stopped state
exits immediately, emitting no payload at all: the simulator is not
restartable. -/
theorem permanently_stopped (p : TSProc) (ops : List TSOp) (clock noise : ℕ → ℚ)
    (i fuel : ℕ) :
    (TSProc.applyAll ops (TSProc.stop p)).sim.run = false ∧
    (TSProc.applyAll ops (TSProc.stop p)).liveLoops = 0 ∧
    (TS.loop clock noise (TSProc.applyAll ops (TSProc.stop p)).sim i fuel).1 = [] := by
  have hstop : (TSProc.stop p).sim.run = false := rfl
  have hlive : (TSProc.stop p).liveLoops = 0 := rfl
  obtain ⟨h1, h2⟩ := applyAll_stopped ops (TSProc.stop p) hstop hlive
  refine ⟨h1, h2, ?_⟩
  rw [TS_loop_not_run h1]

/-- C10 counterexample: reload does not leave every non-reset field of the
window unchanged — it moves the map marker back to the home position
(changing the map-widget lat/lon) and appends one line to the mission log. -/
theorem reload_touches_map_and_log :
    (reloadRover ⟨287/10, 773/10, 50, 40, 1, 30, 287/10, 773/10, 5⟩).mapLat
        ≠ (287/10 : ℚ) ∧
    (reloadRover ⟨287/10, 773/10, 50, 40, 1, 30, 287/10, 773/10, 5⟩).logLines ≠ 5 := by
  constructor <;> norm_num [reloadRover]

/-- C10 (amended): `_reload_rover` resets exactly the five driving
simulator variables (lat/lon to 28.6/77.2, distance to 0, battery to 100,
speed to 0) and leaves `_sim_temp` unchanged; besides those, its only
effects are appending one mission-log line and moving the map marker to
the home position. -/
theorem reload_frame_effect (w : WindowState) :
    reloadRover w =
      { simLat := 286/10, simLon := 772/10, simDistance := 0,
        simBattery := 100, simSpeed := 0, simTemp := w.simTemp,
        mapLat := 286/10, mapLon := 772/10, logLines := w.logLines + 1 } := rfl

end GCSUI
